import Mathlib

/-!
Verification development for the live-conversation feature of the EmaGPT
repository (src/components/LiveConversation.tsx).

The component is a React function component whose behaviour is driven by
state hooks (useState) and mutable references (useRef).  The embedding
models the component's combined state as one record, `LiveState`, whose
fields are named after the hooks and refs of the source.  Each callback of
the source (stopSession, startSession, onopen, onmessage, onerror, onclose,
onaudioprocess) becomes a pure transition function on `LiveState`.

Times (the output audio clock `outputCtx.currentTime`, buffer durations,
and the scheduling watermark `nextStartTimeRef`) are modelled as rationals:
the source computes with real-valued seconds and only uses max, addition
and comparison on them.

React closure semantics matter in one place: the `onmessage` callback is
created inside `startSession` and closes over the `currentTranscription`
value of the render in which `startSession` ran; later `setCurrentTranscription`
calls do not change that captured value.  The embedding therefore passes
the captured value to `onmessage` explicitly (parameter `captured`).
Functional state updates (`setX(prev => ...)`), which do read the up-to-date
state, are modelled by reading the current `LiveState` field.
-/

/-- The `{ user, model }` transcription record of the source
(useState `currentTranscription` / elements of `transcriptions`). -/
structure Transcription where
  user : String
  model : String
deriving DecidableEq, Repr

/-- Handle for the resolved value of the live-session promise
(`sessionPromiseRef`).  Only identity matters to the embedding. -/
structure SessionHandle where
  id : ℕ
deriving DecidableEq, Repr

/-- A hardware media stream (`mediaStreamRef`), carrying its track ids. -/
structure MediaStream where
  trackIds : List ℕ
deriving DecidableEq, Repr

/-- An AudioContext (`inputAudioContextRef` / `outputAudioContextRef`),
identified by its sample rate as in the source. -/
structure AudioCtx where
  sampleRate : ℕ
deriving DecidableEq, Repr

/-- A web-audio node handle (`scriptProcessorRef` / `mediaStreamSourceRef`). -/
structure NodeHandle where
  id : ℕ
deriving DecidableEq, Repr

/-- An already-scheduled playback source (elements of `audioSourcesRef`):
the source node created in `onmessage`, with the start time passed to
`source.start` and the decoded buffer's duration. -/
structure ScheduledSource where
  startTime : ℚ
  duration : ℚ
deriving DecidableEq, Repr

/-- The decoded inline audio payload of a server message
(`message.serverContent.modelTurn.parts[0].inlineData.data`, after
`decodeAudioData`): what the scheduler needs from it is its duration. -/
structure InlineAudio where
  duration : ℚ
deriving DecidableEq, Repr

/-- A `LiveServerMessage` as consumed by `onmessage`: optional partial
user transcript, optional partial model transcript, turn-complete flag,
optional inline audio chunk. -/
structure ServerMessage where
  inputTranscription : Option String
  outputTranscription : Option String
  turnComplete : Bool
  inlineAudio : Option InlineAudio
deriving DecidableEq, Repr

/-- The combined state of the LiveConversation component: the four
useState hooks and the mutable refs (lines 19-32 of the source). -/
structure LiveState where
  isSessionActive : Bool
  transcriptions : List Transcription
  currentTranscription : Transcription
  error : Option String
  sessionPromise : Option SessionHandle
  inputAudioContext : Option AudioCtx
  outputAudioContext : Option AudioCtx
  mediaStream : Option MediaStream
  scriptProcessor : Option NodeHandle
  mediaStreamSource : Option NodeHandle
  nextStartTime : ℚ
  audioSources : List ScheduledSource
deriving DecidableEq, Repr

/-- Component state at mount: hooks start at their useState defaults,
refs at null, `nextStartTimeRef` at 0, `audioSourcesRef` empty. -/
def initialState : LiveState :=
  { isSessionActive := false
    transcriptions := []
    currentTranscription := { user := "", model := "" }
    error := none
    sessionPromise := none
    inputAudioContext := none
    outputAudioContext := none
    mediaStream := none
    scriptProcessor := none
    mediaStreamSource := none
    nextStartTime := 0
    audioSources := [] }

/-- `stopSession` (source lines 34-53): four individually null-guarded
teardown steps, each clearing its ref, then `setIsSessionActive(false)`.
The function is total on `LiveState`: no step dereferences a cleared
handle, which models the absence of a throw. -/
def stopSession (s : LiveState) : LiveState :=
  let s1 := if s.sessionPromise.isSome then { s with sessionPromise := none } else s
  let s2 := if s1.scriptProcessor.isSome then { s1 with scriptProcessor := none } else s1
  let s3 := if s2.mediaStreamSource.isSome then { s2 with mediaStreamSource := none } else s2
  let s4 := if s3.mediaStream.isSome then { s3 with mediaStream := none } else s3
  { s4 with isSessionActive := false }

/-- The externally visible actions a `stopSession` invocation performs,
in program order. -/
inductive StopStep where
  | requestSessionClose
  | discardScriptProcessor
  | discardMediaSource
  | stopStreamTracks
  | setActiveFalse
deriving DecidableEq, Repr

/-- Position of each teardown action in the body of `stopSession`. -/
def stepRank : StopStep → ℕ
  | .requestSessionClose => 0
  | .discardScriptProcessor => 1
  | .discardMediaSource => 2
  | .stopStreamTracks => 3
  | .setActiveFalse => 4

/-- The trace of actions a call to `stopSession` performs from state `s`:
each guarded step is attempted only when its handle is non-null
(source lines 35, 39, 43, 47), and the active flag is flipped last
(line 52). -/
def stopSessionSteps (s : LiveState) : List StopStep :=
  (if s.sessionPromise.isSome then [StopStep.requestSessionClose] else []) ++
  (if s.scriptProcessor.isSome then [StopStep.discardScriptProcessor] else []) ++
  (if s.mediaStreamSource.isSome then [StopStep.discardMediaSource] else []) ++
  (if s.mediaStream.isSome then [StopStep.stopStreamTracks] else []) ++
  [StopStep.setActiveFalse]

/-- The scheduling step of the inbound audio path (source lines 118,
124-125): clamp the watermark to the current output clock, start the
chunk there, advance the watermark by the chunk's duration.  Returns
(scheduled start time, new watermark). -/
def scheduleChunk (cursor clock dur : ℚ) : ℚ × ℚ :=
  (max cursor clock, max cursor clock + dur)

/-- Iterated inbound scheduling: fold `scheduleChunk` over a sequence of
chunks given as (output clock at arrival, duration) pairs.  Returns the
list of (scheduled start, duration) and the final watermark. -/
def runScheduler : ℚ → List (ℚ × ℚ) → List (ℚ × ℚ) × ℚ
  | cursor, [] => ([], cursor)
  | cursor, (clock, dur) :: rest =>
    let sc := scheduleChunk cursor clock dur
    let r := runScheduler sc.2 rest
    ((sc.1, dur) :: r.1, r.2)

/-- Sum of the durations of a chunk sequence. -/
def sumDurs (chunks : List (ℚ × ℚ)) : ℚ :=
  (chunks.map Prod.snd).sum

/-- Playback keeps up with arrivals: every chunk in the list arrives
while its predecessors are still scheduled, i.e. its clock is at most the
watermark current when it is processed. -/
def keepsUp : ℚ → List (ℚ × ℚ) → Bool
  | _, [] => true
  | cursor, (clock, dur) :: rest =>
    if clock ≤ cursor then keepsUp (max cursor clock + dur) rest else false

/-- Truncation toward zero, the rounding JavaScript applies when a float
is assigned into an Int16Array (step ToIntegerOrInfinity of ToInt16). -/
def qtrunc (x : ℚ) : ℤ := if 0 ≤ x then ⌊x⌋ else ⌈x⌉

/-- The outbound sample conversion `int16[i] = inputData[i] * 32768`
(source line 88): multiply by 32768, truncate, then reduce into signed
16-bit range modulo 2 ^ 16 as the Int16Array store does. -/
def toInt16 (x : ℚ) : ℤ :=
  (qtrunc (x * 32768) + 32768) % 65536 - 32768

/-- The per-callback encoding loop of `onaudioprocess` (source lines
85-89): every float sample of the input block is converted
independently. -/
def encodeFrame (xs : List ℚ) : List ℤ :=
  xs.map toInt16

/-- The outbound effect `onaudioprocess` can emit. -/
inductive OutEffect where
  | sendRealtimeInput (pcm : List ℤ) (mimeType : String)
deriving DecidableEq, Repr

/-- `onaudioprocess` (source lines 82-97): encode the block, then send it
through `sessionPromiseRef.current?.then(...)`.  The optional-chaining
guard means a null session promise produces no send and no exception; the
handler never writes any component state, so it is modelled as the list
of effects it emits. -/
def onaudioprocess (s : LiveState) (inputData : List ℚ) : List OutEffect :=
  let pcm := encodeFrame inputData
  match s.sessionPromise with
  | some _ => [OutEffect.sendRealtimeInput pcm "audio/pcm;rate=16000"]
  | none => []

/-- `onmessage`, stage 1 (source lines 102-105): a partial user
transcript is appended to the current turn via a functional update. -/
def applyInputTranscription (msg : ServerMessage) (s : LiveState) : LiveState :=
  match msg.inputTranscription with
  | some t =>
    { s with currentTranscription :=
        { s.currentTranscription with user := s.currentTranscription.user ++ t } }
  | none => s

/-- `onmessage`, stage 2 (source lines 106-109): a partial model
transcript is appended to the current turn via a functional update. -/
def applyOutputTranscription (msg : ServerMessage) (s : LiveState) : LiveState :=
  match msg.outputTranscription with
  | some t =>
    { s with currentTranscription :=
        { s.currentTranscription with model := s.currentTranscription.model ++ t } }
  | none => s

/-- `onmessage`, stage 3 (source lines 110-113): on turn-complete the
source appends `currentTranscription` — the value captured by the
callback's closure when the session was started, NOT the up-to-date
state — to the history, then resets the current turn. -/
def applyTurnComplete (captured : Transcription) (msg : ServerMessage)
    (s : LiveState) : LiveState :=
  if msg.turnComplete then
    { s with transcriptions := s.transcriptions ++ [captured]
             currentTranscription := { user := "", model := "" } }
  else s

/-- `onmessage`, stage 4 (source lines 115-127): when an inline audio
payload is present and the output context exists, schedule it with
`scheduleChunk` at the given output clock and track the new source. -/
def applyInlineAudio (clock : ℚ) (msg : ServerMessage) (s : LiveState) : LiveState :=
  match msg.inlineAudio with
  | some a =>
    if s.outputAudioContext.isSome then
      let sc := scheduleChunk s.nextStartTime clock a.duration
      { s with nextStartTime := sc.2
               audioSources := s.audioSources ++ [{ startTime := sc.1, duration := a.duration }] }
    else s
  | none => s

/-- `onmessage` (source lines 101-128), as the source sequences its four
concerns.  `captured` is the `currentTranscription` value the callback
closed over at session start; `clock` is `outputCtx.currentTime` when the
audio branch runs. -/
def onmessage (captured : Transcription) (clock : ℚ) (msg : ServerMessage)
    (s : LiveState) : LiveState :=
  applyInlineAudio clock msg
    (applyTurnComplete captured msg
      (applyOutputTranscription msg
        (applyInputTranscription msg s)))

/-- `onopen` (source lines 70-99): bail out if the media stream ref is
null, otherwise create the two audio contexts (16 kHz in, 24 kHz out),
the media-stream source node and the script processor node. -/
def onopen (s : LiveState) : LiveState :=
  if s.mediaStream.isSome then
    { s with inputAudioContext := some { sampleRate := 16000 }
             outputAudioContext := some { sampleRate := 24000 }
             mediaStreamSource := some { id := 0 }
             scriptProcessor := some { id := 1 } }
  else s

/-- `onerror` (source lines 129-133): surface the message, then run the
same `stopSession` teardown as an explicit stop. -/
def onerror (m : String) (s : LiveState) : LiveState :=
  stopSession { s with error := some ("Session error: " ++ m ++ ". Please try again.") }

/-- The action trace of `onerror`: exactly the steps of the `stopSession`
call it makes (setting the error message is a state write, not a
teardown action). -/
def onerrorSteps (m : String) (s : LiveState) : List StopStep :=
  stopSessionSteps { s with error := some ("Session error: " ++ m ++ ". Please try again.") }

/-- `onclose` (source lines 134-137): only `setIsSessionActive(false)`;
no ref is cleared. -/
def onclose (s : LiveState) : LiveState :=
  { s with isSessionActive := false }

/-- How the asynchronous part of `startSession` resolves.
`micDenied`: `getUserMedia` rejects, the catch block runs with no stream
assigned.  `connectFailed`: the microphone was acquired and assigned to
`mediaStreamRef`, then `new GoogleGenAI` or `ai.live.connect` threw
synchronously and the catch block ran; `authLike` selects which of the
two error messages the substring match on the thrown message picks.
`connected`: both succeeded and the session promise was stored. -/
inductive StartOutcome where
  | micDenied
  | connectFailed (stream : MediaStream) (authLike : Bool)
  | connected (stream : MediaStream) (handle : SessionHandle)
deriving DecidableEq, Repr

/-- The synchronous prologue of `startSession` (source lines 56-59):
clear the error, optimistically set the active flag, clear the history
and the current turn.  `nextStartTimeRef` is NOT touched. -/
def startSessionBegin (s : LiveState) : LiveState :=
  { s with error := none
           isSessionActive := true
           transcriptions := []
           currentTranscription := { user := "", model := "" } }

/-- `startSession` (source lines 55-158) up to promise resolution: the
prologue, then the try block assigning `mediaStreamRef` and
`sessionPromiseRef`, or the catch block (lines 149-157) which sets an
error message and clears the active flag — and nothing else: it stops no
track and clears no ref. -/
def startSession (s : LiveState) (outcome : StartOutcome) : LiveState :=
  let s := startSessionBegin s
  match outcome with
  | .micDenied =>
    { s with error := some "Could not access microphone or start session. Please check permissions."
             isSessionActive := false }
  | .connectFailed stream authLike =>
    { s with mediaStream := some stream
             error := some (if authLike then
                 "API Key error or model access issue. Please check your API key and that you have access to the Live API model."
               else
                 "Could not access microphone or start session. Please check permissions.")
             isSessionActive := false }
  | .connected stream handle =>
    { s with mediaStream := some stream
             sessionPromise := some handle }

/-- The events that drive the component, in the order the single-threaded
event loop delivers them. -/
inductive Event where
  | startClicked (outcome : StartOutcome)
  | sessionOpened
  | serverMessage (captured : Transcription) (clock : ℚ) (msg : ServerMessage)
  | transportError (m : String)
  | remoteClosed
  | stopClicked
  | sourceEnded (src : ScheduledSource)
deriving DecidableEq, Repr

/-- Physical well-formedness of an event: a decoded audio buffer never
has a negative duration. -/
def eventDursOk : Event → Bool
  | .serverMessage _ _ msg =>
    match msg.inlineAudio with
    | some a => decide (0 ≤ a.duration)
    | none => true
  | _ => true

/-- One step of the component: dispatch an event to the handler the
source installs for it.  `sourceEnded` is the listener of source line
123, removing a finished source from the tracking set. -/
def applyEvent (e : Event) (s : LiveState) : LiveState :=
  match e with
  | .startClicked outcome => startSession s outcome
  | .sessionOpened => onopen s
  | .serverMessage captured clock msg => onmessage captured clock msg s
  | .transportError m => onerror m s
  | .remoteClosed => onclose s
  | .stopClicked => stopSession s
  | .sourceEnded src => { s with audioSources := s.audioSources.erase src }

/-- Run a sequence of events from a state. -/
def applyEvents (s : LiveState) (events : List Event) : LiveState :=
  events.foldl (fun st e => applyEvent e st) s

/-! ## Helper lemmas -/

/-- Normal form of `stopSession`: whatever the entry state, all four
handles end null and the active flag ends false; nothing else changes. -/
theorem stopSession_eq (s : LiveState) :
    stopSession s =
      { s with sessionPromise := none
               scriptProcessor := none
               mediaStreamSource := none
               mediaStream := none
               isSessionActive := false } := by
  rcases s with ⟨act, tr, cur, err, sp, ictx, octx, ms, proc, src, nst, srcs⟩
  cases sp <;> cases proc <;> cases src <;> cases ms <;> rfl

/-! ## Claim theorems -/

/-- Claim C4: from every prior state — stop already completed, start not
completed, anything — `stopSession` is a total function (each teardown
step is null-guarded, so no step faults), after it returns the hardware
media stream handle and the session handle are both null and the active
flag is false, and running it twice leaves exactly the state of running
it once. -/
theorem stopSession_idempotent_and_releases (s : LiveState) :
    stopSession (stopSession s) = stopSession s ∧
    (stopSession s).mediaStream = none ∧
    (stopSession s).sessionPromise = none ∧
    (stopSession s).scriptProcessor = none ∧
    (stopSession s).mediaStreamSource = none ∧
    (stopSession s).isSessionActive = false := by
  rw [stopSession_eq s, stopSession_eq]
  refine ⟨?_, rfl, rfl, rfl, rfl, rfl⟩
  rfl

/-- Claim C10: `stopSession` writes only the session promise, the two
node refs, the media stream ref (all to null) and the active flag (to
false); the two audio contexts, the playback watermark, the tracked
scheduled sources, the transcript history, the current turn and the
error message are all left exactly as they were. -/
theorem stopSession_frame (s : LiveState) :
    (stopSession s).inputAudioContext = s.inputAudioContext ∧
    (stopSession s).outputAudioContext = s.outputAudioContext ∧
    (stopSession s).nextStartTime = s.nextStartTime ∧
    (stopSession s).audioSources = s.audioSources ∧
    (stopSession s).transcriptions = s.transcriptions ∧
    (stopSession s).currentTranscription = s.currentTranscription ∧
    (stopSession s).error = s.error ∧
    (stopSession s).sessionPromise = none ∧
    (stopSession s).scriptProcessor = none ∧
    (stopSession s).mediaStreamSource = none ∧
    (stopSession s).mediaStream = none ∧
    (stopSession s).isSessionActive = false := by
  rw [stopSession_eq s]
  exact ⟨rfl, rfl, rfl, rfl, rfl, rfl, rfl, rfl, rfl, rfl, rfl, rfl⟩

/-- Claim C8: every invocation of `stopSession`, from any entry state,
attempts its actions in the fixed program order — request session close,
discard the script-processor node, discard the media-source node, stop
the stream tracks — each attempted exactly when its handle is non-null,
and the active-flag flip to false is always performed and always comes
last. -/
theorem stopSession_step_order (s : LiveState) :
    (stopSessionSteps s).Pairwise (fun a b => stepRank a < stepRank b) ∧
    (stopSessionSteps s).getLast? = some StopStep.setActiveFalse ∧
    (StopStep.requestSessionClose ∈ stopSessionSteps s ↔ s.sessionPromise.isSome = true) ∧
    (StopStep.discardScriptProcessor ∈ stopSessionSteps s ↔ s.scriptProcessor.isSome = true) ∧
    (StopStep.discardMediaSource ∈ stopSessionSteps s ↔ s.mediaStreamSource.isSome = true) ∧
    (StopStep.stopStreamTracks ∈ stopSessionSteps s ↔ s.mediaStream.isSome = true) ∧
    StopStep.setActiveFalse ∈ stopSessionSteps s := by
  cases h1 : s.sessionPromise.isSome <;> cases h2 : s.scriptProcessor.isSome <;>
    cases h3 : s.mediaStreamSource.isSome <;> cases h4 : s.mediaStream.isSome <;>
    simp only [stopSessionSteps, h1, h2, h3, h4] <;> decide

/-- Claim C6: a transport error event performs exactly the teardown of an
explicit stop — same action trace, session and stream and node handles
all null, active flag false — and additionally surfaces a user-visible
error message; for an open or opening session (session promise present)
the trace includes the session-close request. -/
theorem onerror_performs_stop_teardown (m : String) (s : LiveState) :
    onerrorSteps m s = stopSessionSteps s ∧
    (onerror m s).sessionPromise = none ∧
    (onerror m s).scriptProcessor = none ∧
    (onerror m s).mediaStreamSource = none ∧
    (onerror m s).mediaStream = none ∧
    (onerror m s).isSessionActive = false ∧
    (onerror m s).error = some ("Session error: " ++ m ++ ". Please try again.") ∧
    (s.sessionPromise.isSome = true →
      StopStep.requestSessionClose ∈ onerrorSteps m s) := by
  refine ⟨rfl, ?_, ?_, ?_, ?_, ?_, ?_, ?_⟩ <;>
    simp only [onerror, onerrorSteps, stopSession_eq, stopSessionSteps]
  · intro hsp
    simp [hsp]

/-- Concrete instantiation of the transport-error teardown theorem at a
state with an open session. -/
theorem onerror_performs_stop_teardown_witness :
    (onerror "boom" { initialState with sessionPromise := some { id := 7 } }).isSessionActive = false ∧
    StopStep.requestSessionClose ∈ onerrorSteps "boom" { initialState with sessionPromise := some { id := 7 } } := by
  have h := onerror_performs_stop_teardown "boom"
    { initialState with sessionPromise := some { id := 7 } }
  exact ⟨h.2.2.2.2.2.1, h.2.2.2.2.2.2.2 (by decide)⟩

/-- The first chunk the scheduler emits never starts before the incoming
watermark. -/
theorem runScheduler_head_start (cursor : ℚ) (chunks : List (ℚ × ℚ)) :
    ∀ p ∈ (runScheduler cursor chunks).1.head?, cursor ≤ p.1 := by
  intro p hp
  cases chunks with
  | nil => simp [runScheduler] at hp
  | cons c rest =>
    obtain ⟨clock, dur⟩ := c
    simp only [runScheduler, scheduleChunk, List.head?_cons, Option.mem_def,
      Option.some.injEq] at hp
    subst hp
    exact le_max_left _ _

/-- No two consecutive scheduled chunks overlap: each start is at least
the previous end. -/
theorem runScheduler_no_overlap (chunks : List (ℚ × ℚ)) : ∀ cursor : ℚ,
    List.Chain' (fun a b : ℚ × ℚ => a.1 + a.2 ≤ b.1) (runScheduler cursor chunks).1 := by
  induction chunks with
  | nil => intro cursor; simp [runScheduler]
  | cons c rest ih =>
    intro cursor
    obtain ⟨clock, dur⟩ := c
    simp only [runScheduler]
    refine List.chain'_cons'.mpr ⟨?_, ih _⟩
    intro b hb
    have h := runScheduler_head_start (scheduleChunk cursor clock dur).2 rest b hb
    simpa [scheduleChunk] using h

/-- When playback keeps up with arrivals, the watermark advances by
exactly the sum of the durations. -/
theorem runScheduler_final_of_keepsUp (chunks : List (ℚ × ℚ)) : ∀ cursor : ℚ,
    keepsUp cursor chunks = true →
    (runScheduler cursor chunks).2 = cursor + sumDurs chunks := by
  induction chunks with
  | nil => intro cursor _; simp [runScheduler, sumDurs]
  | cons c rest ih =>
    intro cursor h
    obtain ⟨clock, dur⟩ := c
    rw [keepsUp] at h
    split at h
    case isTrue hc =>
      have hmax : max cursor clock = cursor := max_eq_left hc
      have hrest := ih (cursor + dur) (by rw [hmax] at h; exact h)
      simp only [runScheduler, scheduleChunk, hmax, hrest, sumDurs, List.map_cons,
        List.sum_cons]
      ring
    case isFalse hc => simp at h

/-- Claim C1 (amended): over every chunk sequence, the inbound scheduler
never overlaps two chunks — each scheduled start is at least the previous
scheduled end — and, provided every chunk after the first arrives no
later than the end of already-scheduled audio, the final watermark (the
end of the last scheduled chunk) equals
max(initial watermark, clock at the first chunk) + sum of all durations:
no gap beyond the initial alignment of the first chunk. -/
theorem scheduler_no_overlap_and_aligned_span (cursor : ℚ) (chunks : List (ℚ × ℚ)) :
    List.Chain' (fun a b : ℚ × ℚ => a.1 + a.2 ≤ b.1) (runScheduler cursor chunks).1 ∧
    (∀ clock dur rest, chunks = (clock, dur) :: rest →
      keepsUp (max cursor clock + dur) rest = true →
      (runScheduler cursor chunks).2 = max cursor clock + dur + sumDurs rest) := by
  refine ⟨runScheduler_no_overlap chunks cursor, ?_⟩
  intro clock dur rest hch hk
  subst hch
  simp only [runScheduler, scheduleChunk]
  rw [runScheduler_final_of_keepsUp rest (max cursor clock + dur) hk]

/-- Concrete instantiation of the scheduler theorem: two chunks on a
fresh session, the second arriving while the first still plays. -/
theorem scheduler_no_overlap_and_aligned_span_witness :
    List.Chain' (fun a b : ℚ × ℚ => a.1 + a.2 ≤ b.1) (runScheduler 0 [(0, 1), (1, 2)]).1 ∧
    (runScheduler 0 [(0, 1), (1, 2)]).2 = max 0 0 + 1 + sumDurs [((1 : ℚ), (2 : ℚ))] := by
  have h := scheduler_no_overlap_and_aligned_span 0 [(0, 1), (1, 2)]
  exact ⟨h.1, h.2 0 1 [(1, 2)] rfl (by norm_num [keepsUp])⟩

/-- The span formula of claim C1 as stated is false on the code: a single
chunk of duration 3 arriving at output clock 5 on a fresh session
(watermark 0) is scheduled at 5 and ends at 8, while
max(clock at first chunk, sum of durations) = max 5 3 = 5; neither the
end of scheduled playback (8) nor the scheduled length (8 - 5 = 3)
equals that value. -/
theorem scheduler_span_formula_counterexample :
    (runScheduler 0 [(5, 3)]).2 = 8 ∧
    ((runScheduler 0 [(5, 3)]).1.map Prod.fst) = [5] ∧
    sumDurs [((5 : ℚ), (3 : ℚ))] = 3 ∧
    max (5 : ℚ) 3 = 5 ∧
    (runScheduler 0 [(5, 3)]).2 ≠ max (5 : ℚ) 3 ∧
    (8 : ℚ) - 5 ≠ max (5 : ℚ) 3 := by
  norm_num [runScheduler, scheduleChunk, sumDurs]

/-- Stage 1 of `onmessage` never touches the playback watermark. -/
theorem applyInputTranscription_nextStartTime (msg : ServerMessage) (s : LiveState) :
    (applyInputTranscription msg s).nextStartTime = s.nextStartTime := by
  obtain ⟨it, ot, tc, ia⟩ := msg
  cases it <;> rfl

/-- Stage 2 of `onmessage` never touches the playback watermark. -/
theorem applyOutputTranscription_nextStartTime (msg : ServerMessage) (s : LiveState) :
    (applyOutputTranscription msg s).nextStartTime = s.nextStartTime := by
  obtain ⟨it, ot, tc, ia⟩ := msg
  cases ot <;> rfl

/-- Stage 3 of `onmessage` never touches the playback watermark. -/
theorem applyTurnComplete_nextStartTime (captured : Transcription) (msg : ServerMessage)
    (s : LiveState) :
    (applyTurnComplete captured msg s).nextStartTime = s.nextStartTime := by
  obtain ⟨it, ot, tc, ia⟩ := msg
  cases tc <;> rfl

/-- The audio branch of `onmessage` only ever moves the watermark
forward, as long as the chunk has nonnegative duration. -/
theorem applyInlineAudio_nextStartTime_le (clock : ℚ) (msg : ServerMessage) (s : LiveState)
    (h : ∀ a ∈ msg.inlineAudio, 0 ≤ a.duration) :
    s.nextStartTime ≤ (applyInlineAudio clock msg s).nextStartTime := by
  obtain ⟨it, ot, tc, ia⟩ := msg
  cases ia with
  | none => exact le_refl _
  | some a =>
    have ha : 0 ≤ a.duration := h a rfl
    cases ho : s.outputAudioContext.isSome with
    | true =>
      simp only [applyInlineAudio, ho, if_true, scheduleChunk]
      calc s.nextStartTime ≤ max s.nextStartTime clock := le_max_left _ _
        _ ≤ max s.nextStartTime clock + a.duration := le_add_of_nonneg_right ha
    | false => simp only [applyInlineAudio, ho, Bool.false_eq_true, if_false]; exact le_refl _

/-- No event handler of the component ever decreases the playback
watermark (decoded chunk durations being nonnegative). -/
theorem applyEvent_nextStartTime_le (e : Event) (s : LiveState)
    (h : eventDursOk e = true) :
    s.nextStartTime ≤ (applyEvent e s).nextStartTime := by
  cases e with
  | startClicked outcome =>
    cases outcome <;> simp [applyEvent, startSession, startSessionBegin]
  | sessionOpened =>
    cases ho : s.mediaStream.isSome <;> simp [applyEvent, onopen, ho]
  | serverMessage captured clock msg =>
    have hd : ∀ a ∈ msg.inlineAudio, 0 ≤ a.duration := by
      intro a ha
      have ha2 : msg.inlineAudio = some a := ha
      simp only [eventDursOk, ha2] at h
      exact of_decide_eq_true h
    have h1 := applyInputTranscription_nextStartTime msg s
    have h2 := applyOutputTranscription_nextStartTime msg (applyInputTranscription msg s)
    have h3 := applyTurnComplete_nextStartTime captured msg
      (applyOutputTranscription msg (applyInputTranscription msg s))
    have h4 := applyInlineAudio_nextStartTime_le clock msg
      (applyTurnComplete captured msg
        (applyOutputTranscription msg (applyInputTranscription msg s))) hd
    simp only [applyEvent, onmessage]
    rw [h3, h2, h1] at h4
    exact h4
  | transportError m => simp [applyEvent, onerror, stopSession_eq]
  | remoteClosed => simp [applyEvent, onclose]
  | stopClicked => simp [applyEvent, stopSession_eq]
  | sourceEnded src => simp [applyEvent]

/-- Monotonicity of the watermark along whole event traces. -/
theorem applyEvents_nextStartTime_le (events : List Event) : ∀ s : LiveState,
    events.all eventDursOk = true →
    s.nextStartTime ≤ (applyEvents s events).nextStartTime := by
  induction events with
  | nil => intro s _; exact le_refl _
  | cons e rest ih =>
    intro s h
    rw [List.all_cons, Bool.and_eq_true] at h
    have h1 := applyEvent_nextStartTime_le e s h.1
    have h2 := ih (applyEvent e s) h.2
    have hfold : applyEvents s (e :: rest) = applyEvents (applyEvent e s) rest := rfl
    rw [hfold]
    exact le_trans h1 h2

/-- Claim C3 (amended): the playback watermark `nextStartTimeRef` is 0 at
component mount — hence at the first session start — and along every
event trace whose audio chunks have nonnegative durations it never
decreases, in particular across a stop followed by a second start.  It is
NOT re-initialised by `startSession`. -/
theorem nextStartTime_zero_at_mount_and_monotone (s : LiveState) (events : List Event)
    (h : events.all eventDursOk = true) :
    initialState.nextStartTime = 0 ∧
    s.nextStartTime ≤ (applyEvents s events).nextStartTime :=
  ⟨rfl, applyEvents_nextStartTime_le events s h⟩

/-- Concrete instantiation of the watermark monotonicity theorem on a
start-open-audio trace. -/
theorem nextStartTime_zero_at_mount_and_monotone_witness :
    initialState.nextStartTime = 0 ∧
    initialState.nextStartTime ≤
      (applyEvents initialState
        [Event.startClicked (StartOutcome.connected { trackIds := [2] } { id := 5 }),
         Event.sessionOpened,
         Event.serverMessage { user := "", model := "" } 0
           { inputTranscription := none, outputTranscription := none,
             turnComplete := false, inlineAudio := some { duration := 2 } }]).nextStartTime :=
  nextStartTime_zero_at_mount_and_monotone initialState
    [Event.startClicked (StartOutcome.connected { trackIds := [2] } { id := 5 }),
     Event.sessionOpened,
     Event.serverMessage { user := "", model := "" } 0
       { inputTranscription := none, outputTranscription := none,
         turnComplete := false, inlineAudio := some { duration := 2 } }] (by decide)

/-- Claim C3 as stated is false on the code: after start, open, one audio
chunk of duration 1 at clock 0, stop, and a second start, the state is a
freshly started session (active flag true) whose watermark is 1, not 0 —
`startSession` never resets `nextStartTimeRef`. -/
theorem nextStartTime_not_reset_at_second_start :
    (applyEvents initialState
      [Event.startClicked (StartOutcome.connected { trackIds := [0] } { id := 0 }),
       Event.sessionOpened,
       Event.serverMessage { user := "", model := "" } 0
         { inputTranscription := none, outputTranscription := none,
           turnComplete := false, inlineAudio := some { duration := 1 } },
       Event.stopClicked,
       Event.startClicked (StartOutcome.connected { trackIds := [0] } { id := 1 })]).isSessionActive
      = true ∧
    (applyEvents initialState
      [Event.startClicked (StartOutcome.connected { trackIds := [0] } { id := 0 }),
       Event.sessionOpened,
       Event.serverMessage { user := "", model := "" } 0
         { inputTranscription := none, outputTranscription := none,
           turnComplete := false, inlineAudio := some { duration := 1 } },
       Event.stopClicked,
       Event.startClicked (StartOutcome.connected { trackIds := [0] } { id := 1 })]).nextStartTime
      = 1 ∧
    (1 : ℚ) ≠ 0 := by
  refine ⟨rfl, ?_, by norm_num⟩
  show (max (0 : ℚ) 0 + 1) = 1
  norm_num

/-- Claim C2: evaluation of the code at the failing input.  A session is
started on a freshly mounted component (the `onmessage` closure captures
the current-turn value { user := empty, model := empty } of that render);
one user transcript fragment then a turn-complete arrive.  The live
current turn correctly accumulates to user = Hello, but the record
appended to the history is the captured session-start snapshot, both
fields empty — not the concatenation of the fragments the claim
requires. -/
theorem turnComplete_appends_captured_snapshot :
    (applyEvents initialState
      [Event.startClicked (StartOutcome.connected { trackIds := [0] } { id := 0 }),
       Event.sessionOpened,
       Event.serverMessage { user := "", model := "" } 0
         { inputTranscription := some "Hello", outputTranscription := none,
           turnComplete := false, inlineAudio := none }]).currentTranscription =
      { user := "Hello", model := "" } ∧
    (applyEvents initialState
      [Event.startClicked (StartOutcome.connected { trackIds := [0] } { id := 0 }),
       Event.sessionOpened,
       Event.serverMessage { user := "", model := "" } 0
         { inputTranscription := some "Hello", outputTranscription := none,
           turnComplete := false, inlineAudio := none },
       Event.serverMessage { user := "", model := "" } 0
         { inputTranscription := none, outputTranscription := none,
           turnComplete := true, inlineAudio := none }]).transcriptions =
      [{ user := "", model := "" }] ∧
    ({ user := "", model := "" } : Transcription) ≠ { user := "Hello", model := "" } := by
  refine ⟨rfl, rfl, by decide⟩

/-- Claim C7 (amended): after `stopSession` has run — explicitly or as
the teardown of a transport error — the session-promise ref is null, so
`onaudioprocess` emits no send, changes nothing and cannot throw (the
optional-chaining guard short-circuits). -/
theorem send_noop_after_stop_teardown (s : LiveState) (m : String) (xs : List ℚ) :
    onaudioprocess (stopSession s) xs = [] ∧
    onaudioprocess (onerror m s) xs = [] := by
  constructor <;> simp [onaudioprocess, stopSession_eq, onerror]

/-- Claim C7 as stated is false on the code for the remote-close path:
`onclose` clears only the active flag, not the session-promise ref, so a
capture callback after the session has entered Closed still emits a
send to the closed session — not a no-op. -/
theorem send_attempted_after_remote_close :
    onaudioprocess
      (applyEvents initialState
        [Event.startClicked (StartOutcome.connected { trackIds := [0] } { id := 0 }),
         Event.sessionOpened, Event.remoteClosed]) [0] ≠ [] ∧
    (applyEvents initialState
      [Event.startClicked (StartOutcome.connected { trackIds := [0] } { id := 0 }),
       Event.sessionOpened, Event.remoteClosed]).isSessionActive = false := by
  constructor
  · intro hcontra
    exact List.cons_ne_nil _ _ hcontra
  · rfl

/-- Claim C5 (amended): for both failure modes of `startSession` — the
microphone denied, or the session client throwing after the microphone
was acquired — the active flag ends false, a user-visible error message
is set, and no new session object is stored; when the microphone itself
was denied, no stream is stored either, but when the session path failed
the already-acquired stream REMAINS held in `mediaStreamRef` (the catch
block stops no track). -/
theorem startSession_failure_observables (s : LiveState) (stream : MediaStream)
    (authLike : Bool) :
    ((startSession s StartOutcome.micDenied).isSessionActive = false ∧
     (startSession s StartOutcome.micDenied).error.isSome = true ∧
     (startSession s StartOutcome.micDenied).sessionPromise = s.sessionPromise ∧
     (startSession s StartOutcome.micDenied).mediaStream = s.mediaStream) ∧
    ((startSession s (StartOutcome.connectFailed stream authLike)).isSessionActive = false ∧
     (startSession s (StartOutcome.connectFailed stream authLike)).error.isSome = true ∧
     (startSession s (StartOutcome.connectFailed stream authLike)).sessionPromise = s.sessionPromise ∧
     (startSession s (StartOutcome.connectFailed stream authLike)).mediaStream = some stream) := by
  simp [startSession, startSessionBegin]

/-- Claim C5 as stated is false on the code: when the session client
throws after the microphone stream was stored, the catch block leaves the
live hardware stream held in `mediaStreamRef` — the failure does not tear
down the microphone path. -/
theorem startSession_connect_failure_retains_stream :
    (startSession initialState
        (StartOutcome.connectFailed { trackIds := [0] } false)).mediaStream =
      some { trackIds := [0] } ∧
    (startSession initialState
        (StartOutcome.connectFailed { trackIds := [0] } false)).mediaStream ≠ none ∧
    (startSession initialState
        (StartOutcome.connectFailed { trackIds := [0] } false)).isSessionActive = false := by
  refine ⟨rfl, by decide, rfl⟩

/-- Claim C9: the outbound encoder is the stateless per-sample map
`toInt16`: multiply by 32768, truncate toward zero, wrap modulo 2 ^ 16
into signed 16-bit range with no clamping.  An input of -1.0 yields
-32768; an input of 1.0 yields 32768 wrapped to -32768; every input
agrees with its truncated scaling modulo 2 ^ 16 and lands in
[-32768, 32767]; and the frame encoder is an elementwise map, so it holds
no state across samples or blocks. -/
theorem toInt16_boundary_wraparound_stateless (x : ℚ) (xs ys : List ℚ) :
    toInt16 (-1) = -32768 ∧
    toInt16 1 = -32768 ∧
    toInt16 x % 65536 = qtrunc (x * 32768) % 65536 ∧
    (-32768 ≤ toInt16 x ∧ toInt16 x ≤ 32767) ∧
    encodeFrame (xs ++ ys) = encodeFrame xs ++ encodeFrame ys ∧
    encodeFrame xs = xs.map toInt16 := by
  refine ⟨?_, ?_, ?_, ?_, ?_, rfl⟩
  · norm_num [toInt16, qtrunc, Int.ceil_neg, Int.floor_ofNat]
  · norm_num [toInt16, qtrunc]
  · unfold toInt16; omega
  · unfold toInt16; omega
  · simp [encodeFrame]
